import Mathlib

/-!
Verification of the frpc client-side configuration core: the typed config
model, the store source, and the config-manager orchestrator
(serviceConfigManager), embedded shallowly from the Go sources.

Go reference material:
- src/unnamed/part_002: serviceConfigManager (ReloadFromFile, WriteConfigFile,
  IsStoreProxyEnabled, store CRUD, withStoreMutationAndReload).
- src/unnamed/part_001: the HTTP API controller (unmarshalTypedConfig).
- src/pkg/config/v1/proxy_plugin.go: typed client plugin options
  (UnmarshalJSON, Clone, Complete).
- src/client/api/controller_test.go (second half): the configmgmt error
  sentinels.
Parts of the repository that the claims need but whose source is not in the
file set (the Store Source implementation, util.EmptyOr/ClonePtr,
WithDisallowUnknownFields, the config-level Clone/Complete methods) are
modelled from the spec; each such definition says so in its doc comment.
-/

/-- Error sentinels of package configmgmt (ErrInvalidArgument, ErrNotFound,
ErrConflict, ErrStoreDisabled, ErrApplyConfig), from the configmgmt package
source included after controller_test.go. -/
inductive MErr where
  | invalidArgument
  | notFound
  | conflict
  | storeDisabled
  | applyConfig
  deriving DecidableEq, Repr

/-- Store-source sentinel errors (source.ErrAlreadyExists, source.ErrNotFound),
as matched by errors.Is in serviceConfigManager. -/
inductive SErr where
  | alreadyExists
  | notFound
  deriving DecidableEq, Repr

/-- Modelled from the spec: a proxy entry of the Store Source (name, the
tri-state enabled flag defaulting to true when unset, and a backend payload
represented by its local port). -/
structure PCfg where
  name : String
  enabled : Option Bool
  localPort : Nat
  deriving DecidableEq, Repr

/-- Modelled from the spec: a visitor entry of the Store Source (name,
tri-state enabled flag, server-name reference). -/
structure VCfg where
  name : String
  enabled : Option Bool
  serverName : String
  deriving DecidableEq, Repr

/-- Modelled from the spec: the Store Source state, an individually editable
collection of proxies and visitors kept in add order. -/
structure StoreState where
  proxies : List PCfg
  visitors : List VCfg
  deriving DecidableEq, Repr

/-- Modelled from the spec: add a named entry; AlreadyExists when a same-named
entry is present, otherwise append (add order preserved). -/
def addNamed (nameOf : α → String) (l : List α) (cfg : α) : Except SErr (List α) :=
  if l.any (fun c => nameOf c = nameOf cfg) then Except.error SErr.alreadyExists
  else Except.ok (l ++ [cfg])

/-- Modelled from the spec: update a named entry; NotFound when no same-named
entry exists, otherwise the same-named entry is replaced in place. -/
def updateNamed (nameOf : α → String) (l : List α) (cfg : α) : Except SErr (List α) :=
  if l.any (fun c => nameOf c = nameOf cfg) then
    Except.ok (l.map (fun c => if nameOf c = nameOf cfg then cfg else c))
  else Except.error SErr.notFound

/-- Modelled from the spec: remove a named entry; NotFound when absent. -/
def removeNamed (nameOf : α → String) (l : List α) (nm : String) : Except SErr (List α) :=
  if l.any (fun c => nameOf c = nm) then
    Except.ok (l.filter (fun c => nameOf c ≠ nm))
  else Except.error SErr.notFound

/-- Modelled from the spec: look a named entry up (Store Source GetProxy /
GetVisitor at value level). -/
def findNamed (nameOf : α → String) (l : List α) (nm : String) : Option α :=
  l.find? (fun c => nameOf c = nm)

def StoreState.addProxy (s : StoreState) (cfg : PCfg) : Except SErr StoreState :=
  (addNamed PCfg.name s.proxies cfg).map (fun l => { s with proxies := l })

def StoreState.updateProxy (s : StoreState) (cfg : PCfg) : Except SErr StoreState :=
  (updateNamed PCfg.name s.proxies cfg).map (fun l => { s with proxies := l })

def StoreState.removeProxy (s : StoreState) (nm : String) : Except SErr StoreState :=
  (removeNamed PCfg.name s.proxies nm).map (fun l => { s with proxies := l })

def StoreState.getProxy (s : StoreState) (nm : String) : Option PCfg :=
  findNamed PCfg.name s.proxies nm

def StoreState.addVisitor (s : StoreState) (cfg : VCfg) : Except SErr StoreState :=
  (addNamed VCfg.name s.visitors cfg).map (fun l => { s with visitors := l })

def StoreState.updateVisitor (s : StoreState) (cfg : VCfg) : Except SErr StoreState :=
  (updateNamed VCfg.name s.visitors cfg).map (fun l => { s with visitors := l })

def StoreState.removeVisitor (s : StoreState) (nm : String) : Except SErr StoreState :=
  (removeNamed VCfg.name s.visitors nm).map (fun l => { s with visitors := l })

def StoreState.getVisitor (s : StoreState) (nm : String) : Option VCfg :=
  findNamed VCfg.name s.visitors nm

/-- Outcome of one mutating manager call: the store afterwards (none = store
disabled), the error returned, and whether reloadConfigFromSourcesLocked (the
tunnel-engine apply step) was invoked. -/
structure MResult where
  store : Option StoreState
  err : Option MErr
  reloadInvoked : Bool
  deriving DecidableEq, Repr

/-- Embeds withStoreMutationAndReload (src/unnamed/part_002, lines 322-341):
under the mutation lock, fail StoreDisabled when no store source is
configured; run the store mutation fn; on fn failure return its error with the
store untouched; on fn success invoke the reload (tunnel-engine apply), and on
reload failure return an ApplyConfig error while keeping the mutated store.
The applyOk flag models whether reloadConfigFromSourcesLocked succeeds. -/
def withStoreMutationAndReload (applyOk : Bool) (store : Option StoreState)
    (fn : StoreState → Except MErr StoreState) : MResult :=
  match store with
  | none => MResult.mk none (some MErr.storeDisabled) false
  | some s =>
    match fn s with
    | Except.error e => MResult.mk (some s) (some e) false
    | Except.ok s2 =>
      if applyOk then MResult.mk (some s2) none true
      else MResult.mk (some s2) (some MErr.applyConfig) true

/-- Embeds CreateStoreProxy (src/unnamed/part_002, lines 136-155): validate the
input (the validation collaborator is the oracle validOk), then add the proxy
under withStoreMutationAndReload, mapping the store AlreadyExists error to
Conflict. -/
def CreateStoreProxy (validOk : PCfg → Bool) (applyOk : Bool)
    (store : Option StoreState) (cfg : PCfg) : MResult :=
  if validOk cfg = false then MResult.mk store (some MErr.invalidArgument) false
  else withStoreMutationAndReload applyOk store (fun s =>
    match s.addProxy cfg with
    | Except.error SErr.alreadyExists => Except.error MErr.conflict
    | Except.error SErr.notFound => Except.error MErr.notFound
    | Except.ok s2 => Except.ok s2)

/-- Embeds UpdateStoreProxy (src/unnamed/part_002, lines 157-186): reject an
empty URL name, a missing body, a body name that differs from the URL name and
a validation failure, all as InvalidArgument and before any store mutation;
then update under withStoreMutationAndReload, mapping NotFound. -/
def UpdateStoreProxy (validOk : PCfg → Bool) (applyOk : Bool)
    (store : Option StoreState) (nm : String) (cfg? : Option PCfg) : MResult :=
  if nm = "" then MResult.mk store (some MErr.invalidArgument) false
  else match cfg? with
  | none => MResult.mk store (some MErr.invalidArgument) false
  | some cfg =>
    if cfg.name ≠ nm then MResult.mk store (some MErr.invalidArgument) false
    else if validOk cfg = false then MResult.mk store (some MErr.invalidArgument) false
    else withStoreMutationAndReload applyOk store (fun s =>
      match s.updateProxy cfg with
      | Except.error SErr.alreadyExists => Except.error MErr.conflict
      | Except.error SErr.notFound => Except.error MErr.notFound
      | Except.ok s2 => Except.ok s2)

/-- Embeds DeleteStoreProxy (src/unnamed/part_002, lines 188-207). -/
def DeleteStoreProxy (applyOk : Bool) (store : Option StoreState)
    (nm : String) : MResult :=
  if nm = "" then MResult.mk store (some MErr.invalidArgument) false
  else withStoreMutationAndReload applyOk store (fun s =>
    match s.removeProxy nm with
    | Except.error SErr.alreadyExists => Except.error MErr.conflict
    | Except.error SErr.notFound => Except.error MErr.notFound
    | Except.ok s2 => Except.ok s2)

/-- Embeds CreateStoreVisitor (src/unnamed/part_002, lines 234-253). -/
def CreateStoreVisitor (validOk : VCfg → Bool) (applyOk : Bool)
    (store : Option StoreState) (cfg : VCfg) : MResult :=
  if validOk cfg = false then MResult.mk store (some MErr.invalidArgument) false
  else withStoreMutationAndReload applyOk store (fun s =>
    match s.addVisitor cfg with
    | Except.error SErr.alreadyExists => Except.error MErr.conflict
    | Except.error SErr.notFound => Except.error MErr.notFound
    | Except.ok s2 => Except.ok s2)

/-- Embeds UpdateStoreVisitor (src/unnamed/part_002, lines 255-284): the same
checks as UpdateStoreProxy, including the URL-name versus body-name match. -/
def UpdateStoreVisitor (validOk : VCfg → Bool) (applyOk : Bool)
    (store : Option StoreState) (nm : String) (cfg? : Option VCfg) : MResult :=
  if nm = "" then MResult.mk store (some MErr.invalidArgument) false
  else match cfg? with
  | none => MResult.mk store (some MErr.invalidArgument) false
  | some cfg =>
    if cfg.name ≠ nm then MResult.mk store (some MErr.invalidArgument) false
    else if validOk cfg = false then MResult.mk store (some MErr.invalidArgument) false
    else withStoreMutationAndReload applyOk store (fun s =>
      match s.updateVisitor cfg with
      | Except.error SErr.alreadyExists => Except.error MErr.conflict
      | Except.error SErr.notFound => Except.error MErr.notFound
      | Except.ok s2 => Except.ok s2)

/-- Embeds DeleteStoreVisitor (src/unnamed/part_002, lines 286-305). -/
def DeleteStoreVisitor (applyOk : Bool) (store : Option StoreState)
    (nm : String) : MResult :=
  if nm = "" then MResult.mk store (some MErr.invalidArgument) false
  else withStoreMutationAndReload applyOk store (fun s =>
    match s.removeVisitor nm with
    | Except.error SErr.alreadyExists => Except.error MErr.conflict
    | Except.error SErr.notFound => Except.error MErr.notFound
    | Except.ok s2 => Except.ok s2)

/-- Embeds GetStoreProxy (src/unnamed/part_002, lines 119-134): empty name is
InvalidArgument, a missing store is StoreDisabled, an absent entry NotFound. -/
def GetStoreProxy (store : Option StoreState) (nm : String) : Except MErr PCfg :=
  if nm = "" then Except.error MErr.invalidArgument
  else match store with
  | none => Except.error MErr.storeDisabled
  | some s =>
    match s.getProxy nm with
    | none => Except.error MErr.notFound
    | some cfg => Except.ok cfg

/-- Embeds GetStoreVisitor (src/unnamed/part_002, lines 217-232). -/
def GetStoreVisitor (store : Option StoreState) (nm : String) : Except MErr VCfg :=
  if nm = "" then Except.error MErr.invalidArgument
  else match store with
  | none => Except.error MErr.storeDisabled
  | some s =>
    match s.getVisitor nm with
    | none => Except.error MErr.notFound
    | some cfg => Except.ok cfg

/-- Embeds IsStoreProxyEnabled (src/unnamed/part_002, lines 83-102): false for
the empty name and a missing store or entry; otherwise the entry's Enabled
flag, nil meaning true. -/
def IsStoreProxyEnabled (store : Option StoreState) (nm : String) : Bool :=
  if nm = "" then false
  else match store with
  | none => false
  | some s =>
    match s.getProxy nm with
    | none => false
    | some cfg =>
      match cfg.enabled with
      | none => true
      | some b => b

/-- Result of config.LoadClientConfigResult at the granularity ReloadFromFile
inspects it: the decoded proxy and visitor sets (the common config carries no
information the claims need). -/
structure LoadResult where
  proxies : List PCfg
  visitors : List VCfg
  deriving DecidableEq, Repr

/-- Outcome of one ReloadFromFile call: the error returned and whether
UpdateConfigSource (the push to the tunnel engine) was invoked. -/
structure ReloadResult where
  err : Option MErr
  updateInvoked : Bool
  deriving DecidableEq, Repr

/-- Embeds ReloadFromFile (src/unnamed/part_002, lines 26-54): an empty config
file path or a load/decode failure is InvalidArgument; a validation failure of
the filtered-and-completed configs (the filter, completion and validation
collaborators folded into the oracle validOk) is InvalidArgument; only then is
UpdateConfigSource invoked, and its failure is reported as ApplyConfig. The
load oracle takes the strict flag, updateOk models UpdateConfigSource. -/
def ReloadFromFile (configFilePath : String) (load : Bool → Except String LoadResult)
    (validOk : LoadResult → Bool) (updateOk : Bool) (strict : Bool) : ReloadResult :=
  if configFilePath = "" then ReloadResult.mk (some MErr.invalidArgument) false
  else match load strict with
  | Except.error _ => ReloadResult.mk (some MErr.invalidArgument) false
  | Except.ok r =>
    if validOk r = false then ReloadResult.mk (some MErr.invalidArgument) false
    else if updateOk then ReloadResult.mk none true
    else ReloadResult.mk (some MErr.applyConfig) true

/-- One file-system side effect of a durable write, at the granularity the
write-discipline claims need: an in-place whole-file write of a path
(os.WriteFile), a whole write of a fresh temp file, or a rename. -/
inductive FsOp where
  | writeFile (path : String) (content : String)
  | writeTemp (path : String) (content : String)
  | rename (src : String) (dst : String)
  deriving DecidableEq, Repr

/-- Outcome of WriteConfigFile: the error returned and the trace of
file-system operations performed. -/
structure WriteResult where
  err : Option MErr
  trace : List FsOp
  deriving DecidableEq, Repr

/-- Embeds WriteConfigFile (src/unnamed/part_002, lines 68-77): an empty body
is InvalidArgument; otherwise the content is handed to os.WriteFile, a single
in-place whole-file write of the config file path itself. -/
def WriteConfigFile (configFilePath : String) (content : String) : WriteResult :=
  if content = "" then WriteResult.mk (some MErr.invalidArgument) []
  else WriteResult.mk none [FsOp.writeFile configFilePath content]

/-- A trace follows the write-to-temp-then-rename discipline for a target
path: the target itself is never written in place, and the content arrives at
the target only through a rename onto it. -/
def usesTempThenRename (trace : List FsOp) (target : String) : Bool :=
  trace.all (fun op =>
    match op with
    | FsOp.writeFile p _ => p ≠ target
    | FsOp.writeTemp p _ => p ≠ target
    | _ => true)
  && trace.any (fun op =>
    match op with
    | FsOp.rename _ dst => dst = target
    | _ => false)

/-- Modelled from the spec: the Store Source durable write (StoreFile,
whole-file replace on every write): the JSON document is written whole to a
temp path and the temp file renamed over the store path. The temp path is a
parameter; the implementation derives a fresh one at runtime. -/
def storePersistTrace (path tmpPath : String) (content : String) : List FsOp :=
  [FsOp.writeTemp tmpPath content, FsOp.rename tmpPath path]

/-- Modelled from the spec: the scoped strictness override
WithDisallowUnknownFields (pkg/config/v1, not in the file set): under the
DisallowUnknownFieldsMu lock it saves the process-wide flag, installs the
override, runs fn against the current flag value and restores the saved value
on every exit path, success and failure alike. The process-wide flag is
threaded explicitly; the call returns fn's result and the flag afterwards. -/
def WithDisallowUnknownFields (override : Bool) (flag : Bool)
    (fn : Bool → Except String Unit) : Except String Unit × Bool :=
  let prev := flag
  let during := override
  (fn during, prev)

/-- An API request body at the granularity the strictness flag acts on:
whether it is well-formed JSON for the target type and whether it contains a
field unknown to that type. -/
structure ReqBody where
  wellFormed : Bool
  hasUnknownField : Bool
  deriving DecidableEq, Repr

/-- Modelled from the spec: decoding an API request body into a typed
proxy/visitor config. A malformed body fails; a well-formed body with an
unknown field fails exactly when the strictness flag in force is set;
otherwise it succeeds. -/
def decodeTypedBody (strictFlag : Bool) (b : ReqBody) : Except String Unit :=
  if b.wellFormed = false then Except.error "parse JSON error"
  else if strictFlag && b.hasUnknownField then Except.error "unknown field"
  else Except.ok ()

/-- Embeds unmarshalTypedConfig (src/unnamed/part_001, lines 73-77): decode
the body under a per-call strictness override of false, scoped through
WithDisallowUnknownFields. Returns the decode result and the process-wide
flag after the call. -/
def unmarshalTypedConfig (flag : Bool) (b : ReqBody) : Except String Unit × Bool :=
  WithDisallowUnknownFields false flag (fun f => decodeTypedBody f b)

/-- A JSON document value, as encoding/json parses one. -/
inductive Jv where
  | null
  | jbool (b : Bool)
  | jnum (n : Int)
  | jstr (s : String)
  | jarr (xs : List Jv)
  | jobj (fields : List (String × Jv))

/-- A raw request/JSON input: the bytes and the result of parsing them with
encoding/json. The byte level is kept because UnmarshalJSON inspects the raw
bytes (the exact four-byte literal null) before parsing. -/
structure RawDoc where
  bytes : String
  parsed : Except String Jv

/-- The last value bound to a key in a JSON object: with encoding/json a
repeated key overwrites, so the last occurrence wins. -/
def lastField (fields : List (String × Jv)) (key : String) : Option Jv :=
  (fields.reverse.find? (fun kv => kv.1 = key)).map (fun kv => kv.2)

/-- Unmarshalling a document into the one-field struct { Type string } with
tag json:"type", as json.Unmarshal behaves: null leaves the zero value, a
non-object document is a type error, a missing or null type field leaves the
empty string, a non-string type value is a type error. -/
def lookupTypeTag : Jv → Except String String
  | Jv.null => Except.ok ""
  | Jv.jobj fields =>
    match lastField fields "type" with
    | none => Except.ok ""
    | some (Jv.jstr s) => Except.ok s
    | some Jv.null => Except.ok ""
    | some _ => Except.error "cannot unmarshal type field"
  | _ => Except.error "cannot unmarshal into struct"

/-- The closed set of client plugin type tags, from the keys of
clientPluginOptionsTypeMap (src/pkg/config/v1/proxy_plugin.go, lines 42-53). -/
def knownClientPluginTypes : List String :=
  ["http2https", "http_proxy", "https2http", "https2https", "http2http",
   "socks5", "static_file", "unix_domain_socket", "tls2raw", "virtual_net"]

/-- The JSON field names each client plugin options variant declares, from the
struct tags in src/pkg/config/v1/proxy_plugin.go; the set a strict decode
checks unknown fields against. -/
def clientPluginFields (tag : String) : List String :=
  if tag = "http2https" then ["type", "localAddr", "hostHeaderRewrite", "requestHeaders"]
  else if tag = "http_proxy" then ["type", "httpUser", "httpPassword"]
  else if tag = "https2http" then
    ["type", "localAddr", "hostHeaderRewrite", "requestHeaders", "enableHTTP2",
     "crtPath", "keyPath"]
  else if tag = "https2https" then
    ["type", "localAddr", "hostHeaderRewrite", "requestHeaders", "enableHTTP2",
     "crtPath", "keyPath"]
  else if tag = "http2http" then ["type", "localAddr", "hostHeaderRewrite", "requestHeaders"]
  else if tag = "socks5" then ["type", "username", "password"]
  else if tag = "static_file" then
    ["type", "localPath", "stripPrefix", "httpUser", "httpPassword"]
  else if tag = "unix_domain_socket" then ["type", "unixPath"]
  else if tag = "tls2raw" then ["type", "localAddr", "crtPath", "keyPath"]
  else if tag = "virtual_net" then ["type"]
  else []

/-- A decoded client plugin options payload at the granularity the decode
claims need: the selected variant's tag and the undecoded object fields
(per-field value decoding below the unknown-fields check is not modelled). -/
structure ClientPluginOptionsD where
  kind : String
  fields : List (String × Jv)

/-- The decoded TypedClientPluginOptions value: the type tag and the payload
held behind the ClientPluginOptions interface (none = nil interface). -/
structure TypedClientPluginOptionsD where
  type : String
  options : Option ClientPluginOptionsD

/-- The zero TypedClientPluginOptions: empty tag, nil payload. -/
def TypedClientPluginOptionsD.zero : TypedClientPluginOptionsD :=
  TypedClientPluginOptionsD.mk "" none

/-- Embeds TypedClientPluginOptions.UnmarshalJSON
(src/pkg/config/v1/proxy_plugin.go, lines 73-106): the exact four-byte literal
null returns immediately leaving the receiver untouched; otherwise the type
tag is extracted (a parse failure propagates), an empty tag and a tag outside
clientPluginOptionsTypeMap are hard decode errors; a known tag decodes the
object into the tagged variant, rejecting fields outside the variant's
declared set when the process-wide DisallowUnknownFields flag is set. prev is
the receiver value before the call; strict the flag in force. -/
def unmarshalTypedClientPluginOptions (strict : Bool) (doc : RawDoc)
    (prev : TypedClientPluginOptionsD) : Except String TypedClientPluginOptionsD :=
  if doc.bytes = "null" then Except.ok prev
  else match doc.parsed with
  | Except.error e => Except.error e
  | Except.ok j =>
    match lookupTypeTag j with
    | Except.error e => Except.error e
    | Except.ok t =>
      if t = "" then Except.error "plugin type is empty"
      else if (knownClientPluginTypes.contains t) = false then
        Except.error ("unknown plugin type: " ++ t)
      else match j with
      | Jv.jobj fields =>
        if strict && fields.any (fun kv => ((clientPluginFields t).contains kv.1) = false)
        then Except.error "unmarshal ClientPluginOptions error"
        else Except.ok (TypedClientPluginOptionsD.mk t (some (ClientPluginOptionsD.mk t fields)))
      | _ => Except.error "unmarshal ClientPluginOptions error"

/-- Modelled from the spec: util.EmptyOr on an optional value (a Go pointer):
the fallback when the value is the zero value nil, the value itself
otherwise. -/
def emptyOrOptBool (v fallback : Option Bool) : Option Bool :=
  if v = none then fallback else v

/-- Modelled from the spec: util.EmptyOr on a string: the fallback when the
string is empty, the string itself otherwise. -/
def emptyOrStr (v fallback : String) : String :=
  if v = "" then fallback else v

/-- HeaderOperations at value level: the set-map of header name to value and
the removal list (the spec's HeaderOperations entity). -/
structure HeaderOperationsV where
  set : List (String × String)
  remove : List String
  deriving DecidableEq, Repr

/-- HTTP2HTTPSPluginOptions (src/pkg/config/v1/proxy_plugin.go, lines
112-117), at value level. -/
structure HTTP2HTTPSPluginOptionsV where
  type : String
  localAddr : String
  hostHeaderRewrite : String
  requestHeaders : HeaderOperationsV
  deriving DecidableEq, Repr

/-- HTTPProxyPluginOptions (lines 130-134). -/
structure HTTPProxyPluginOptionsV where
  type : String
  httpUser : String
  httpPassword : String
  deriving DecidableEq, Repr

/-- HTTPS2HTTPPluginOptions (lines 146-154). -/
structure HTTPS2HTTPPluginOptionsV where
  type : String
  localAddr : String
  hostHeaderRewrite : String
  requestHeaders : HeaderOperationsV
  enableHTTP2 : Option Bool
  crtPath : String
  keyPath : String
  deriving DecidableEq, Repr

/-- HTTPS2HTTPSPluginOptions (lines 170-178). -/
structure HTTPS2HTTPSPluginOptionsV where
  type : String
  localAddr : String
  hostHeaderRewrite : String
  requestHeaders : HeaderOperationsV
  enableHTTP2 : Option Bool
  crtPath : String
  keyPath : String
  deriving DecidableEq, Repr

/-- HTTP2HTTPPluginOptions (lines 194-199). -/
structure HTTP2HTTPPluginOptionsV where
  type : String
  localAddr : String
  hostHeaderRewrite : String
  requestHeaders : HeaderOperationsV
  deriving DecidableEq, Repr

/-- Socks5PluginOptions (lines 212-216). -/
structure Socks5PluginOptionsV where
  type : String
  username : String
  password : String
  deriving DecidableEq, Repr

/-- StaticFilePluginOptions (lines 228-234). -/
structure StaticFilePluginOptionsV where
  type : String
  localPath : String
  stripPrefix : String
  httpUser : String
  httpPassword : String
  deriving DecidableEq, Repr

/-- UnixDomainSocketPluginOptions (lines 246-249). -/
structure UnixDomainSocketPluginOptionsV where
  type : String
  unixPath : String
  deriving DecidableEq, Repr

/-- TLS2RawPluginOptions (lines 261-266). -/
structure TLS2RawPluginOptionsV where
  type : String
  localAddr : String
  crtPath : String
  keyPath : String
  deriving DecidableEq, Repr

/-- VirtualNetPluginOptions (lines 278-280). -/
structure VirtualNetPluginOptionsV where
  type : String
  deriving DecidableEq, Repr

/-- The closed union of client plugin options variants (the dynamic types
clientPluginOptionsTypeMap dispatches over). -/
inductive ClientPluginOptionsV where
  | http2https (o : HTTP2HTTPSPluginOptionsV)
  | httpProxy (o : HTTPProxyPluginOptionsV)
  | https2http (o : HTTPS2HTTPPluginOptionsV)
  | https2https (o : HTTPS2HTTPSPluginOptionsV)
  | http2http (o : HTTP2HTTPPluginOptionsV)
  | socks5 (o : Socks5PluginOptionsV)
  | staticFile (o : StaticFilePluginOptionsV)
  | unixDomainSocket (o : UnixDomainSocketPluginOptionsV)
  | tls2raw (o : TLS2RawPluginOptionsV)
  | virtualNet (o : VirtualNetPluginOptionsV)
  deriving DecidableEq, Repr

/-- Complete of HTTPS2HTTPPluginOptions (lines 156-158): EnableHTTP2 defaults
to true when unset; every other field is left alone. -/
def HTTPS2HTTPPluginOptionsV.complete (o : HTTPS2HTTPPluginOptionsV) :
    HTTPS2HTTPPluginOptionsV :=
  { o with enableHTTP2 := emptyOrOptBool o.enableHTTP2 (some true) }

/-- Complete of HTTPS2HTTPSPluginOptions (lines 180-182). -/
def HTTPS2HTTPSPluginOptionsV.complete (o : HTTPS2HTTPSPluginOptionsV) :
    HTTPS2HTTPSPluginOptionsV :=
  { o with enableHTTP2 := emptyOrOptBool o.enableHTTP2 (some true) }

/-- Complete over the client plugin options union: https2http and https2https
default EnableHTTP2; every other variant's Complete is a no-op (lines 119,
136, 201, 218, 236, 251, 268, 282). -/
def ClientPluginOptionsV.complete : ClientPluginOptionsV → ClientPluginOptionsV
  | ClientPluginOptionsV.https2http o => ClientPluginOptionsV.https2http o.complete
  | ClientPluginOptionsV.https2https o => ClientPluginOptionsV.https2https o.complete
  | o => o

/-- Modelled from the spec: the runtime-default-filling part of a proxy
config's Complete visible in the tests: LocalIP defaults to 127.0.0.1 and
Transport.BandwidthLimitMode to its client default when empty; explicit values
survive. -/
structure ProxyBaseConfigV where
  name : String
  type : String
  enabled : Option Bool
  localIP : String
  localPort : Nat
  bandwidthLimitMode : String
  plugin : Option ClientPluginOptionsV
  deriving DecidableEq, Repr

/-- Modelled from the spec: Complete of a proxy config: fill machine-dependent
defaults into empty fields, complete the attached plugin options. -/
def ProxyBaseConfigV.complete (p : ProxyBaseConfigV) : ProxyBaseConfigV :=
  { p with
    localIP := emptyOrStr p.localIP "127.0.0.1"
    bandwidthLimitMode := emptyOrStr p.bandwidthLimitMode "client"
    plugin := p.plugin.map ClientPluginOptionsV.complete }

/-- Modelled from the spec: the runtime-default-filling part of a visitor
config's Complete visible in the tests: BindAddr defaults to 127.0.0.1. -/
structure VisitorBaseConfigV where
  name : String
  type : String
  enabled : Option Bool
  serverName : String
  bindAddr : String
  bindPort : Nat
  deriving DecidableEq, Repr

/-- Modelled from the spec: Complete of a visitor config. -/
def VisitorBaseConfigV.complete (v : VisitorBaseConfigV) : VisitorBaseConfigV :=
  { v with bindAddr := emptyOrStr v.bindAddr "127.0.0.1" }

/-- A heap location: the identity of one Go reference (a map, a slice or a
pointer target). Deep-clone independence is about these identities. -/
abbrev Loc := Nat

/-- The pointee of one reference-typed component of the config model: a
map[string]string, a []string, a bool pointee, a []HTTPHeader, or a
NatTraversalConfig pointee. -/
inductive Cell where
  | smap (entries : List (String × String))
  | slist (items : List String)
  | bcell (b : Bool)
  | hlist (headers : List (String × String))
  | natCell (disableAssistedAddrs : Bool)
  deriving DecidableEq, Repr

/-- A heap of reference cells with a bump allocator. -/
structure Heap where
  next : Loc
  mem : Loc → Option Cell

/-- Allocate a fresh cell. -/
def Heap.alloc (h : Heap) (c : Cell) : Heap × Loc :=
  (Heap.mk (h.next + 1) (fun k => if k = h.next then some c else h.mem k), h.next)

/-- Mutate the cell at a location (a caller writing through a shared map,
slice or pointer). -/
def Heap.update (h : Heap) (ℓ : Loc) (c : Cell) : Heap :=
  Heap.mk h.next (fun k => if k = ℓ then some c else h.mem k)

/-- Dereference an optional reference: nil reads as none. -/
def readRef (h : Heap) (r : Option Loc) : Option Cell :=
  r.bind h.mem

/-- The locations a reference owns. -/
def refLocs : Option Loc → List Loc
  | none => []
  | some ℓ => [ℓ]

/-- A reference list is well formed in a heap: every owned location is
allocated below the bump pointer and holds a cell. -/
def WfRefs (h : Heap) (rs : List (Option Loc)) : Prop :=
  ∀ r ∈ rs, ∀ ℓ ∈ refLocs r, ℓ < h.next ∧ (h.mem ℓ).isSome = true

/-- One clone pass only allocates: the bump pointer grows and every
previously allocated location keeps its cell. -/
def CloneStep (h h' : Heap) : Prop :=
  h.next ≤ h'.next ∧ ∀ ℓ, ℓ < h.next → h'.mem ℓ = h.mem ℓ

/-- The contract of one clone pass mapping the reference list old to new: it
only allocates, the new references read back exactly what the old ones read
before, and every new location is fresh (at or above the old bump pointer)
and allocated. -/
structure CloneOut (h h' : Heap) (old new : List (Option Loc)) : Prop where
  step : CloneStep h h'
  reads : new.map (readRef h') = old.map (readRef h)
  fresh : ∀ r ∈ new, ∀ ℓ ∈ refLocs r, h.next ≤ ℓ ∧ ℓ < h'.next ∧ (h'.mem ℓ).isSome = true

/-- Go's copy of one optional reference component: nil stays nil; otherwise
the pointee is copied into a fresh cell (maps.Clone, slices.Clone,
util.ClonePtr all end here). -/
def cloneRef (h : Heap) : Option Loc → Heap × Option Loc
  | none => (h, none)
  | some ℓ =>
    match h.mem ℓ with
    | some c => ((h.alloc c).1, some (h.alloc c).2)
    | none => (h, some ℓ)

/-- HeaderOperations at reference level: the set map and the removal list are
Go references; nil is none. -/
structure HeaderOpsH where
  set : Option Loc
  remove : Option Loc
  deriving DecidableEq, Repr

def HeaderOpsH.refs (x : HeaderOpsH) : List (Option Loc) :=
  [x.set, x.remove]

/-- Modelled from the spec: HeaderOperations.Clone deep-copies the inner set
map and removal list. -/
def HeaderOpsH.clone (h : Heap) (x : HeaderOpsH) : Heap × HeaderOpsH :=
  let p1 := cloneRef h x.set
  let p2 := cloneRef p1.1 x.remove
  (p2.1, HeaderOpsH.mk p1.2 p2.2)

/-- HTTP2HTTPSPluginOptions at reference level: RequestHeaders is the only
reference-typed component. -/
structure HTTP2HTTPSPluginOptionsH where
  type : String
  localAddr : String
  hostHeaderRewrite : String
  requestHeaders : HeaderOpsH
  deriving DecidableEq, Repr

/-- Clone of HTTP2HTTPSPluginOptions (src/pkg/config/v1/proxy_plugin.go,
lines 121-128): out is the shallow copy of the receiver with RequestHeaders
replaced by its deep clone. -/
def HTTP2HTTPSPluginOptionsH.clone (h : Heap) (o : HTTP2HTTPSPluginOptionsH) :
    Heap × HTTP2HTTPSPluginOptionsH :=
  let p := HeaderOpsH.clone h o.requestHeaders
  (p.1, { o with requestHeaders := p.2 })

/-- HTTPS2HTTPPluginOptions at reference level: RequestHeaders and the
EnableHTTP2 pointer are references. -/
structure HTTPS2HTTPPluginOptionsH where
  type : String
  localAddr : String
  hostHeaderRewrite : String
  requestHeaders : HeaderOpsH
  enableHTTP2 : Option Loc
  crtPath : String
  keyPath : String
  deriving DecidableEq, Repr

/-- Clone of HTTPS2HTTPPluginOptions (lines 160-168): shallow copy, then
RequestHeaders.Clone and util.ClonePtr of EnableHTTP2. -/
def HTTPS2HTTPPluginOptionsH.clone (h : Heap) (o : HTTPS2HTTPPluginOptionsH) :
    Heap × HTTPS2HTTPPluginOptionsH :=
  let p := HeaderOpsH.clone h o.requestHeaders
  let q := cloneRef p.1 o.enableHTTP2
  (q.1, { o with requestHeaders := p.2, enableHTTP2 := q.2 })

/-- HTTPS2HTTPSPluginOptions at reference level. -/
structure HTTPS2HTTPSPluginOptionsH where
  type : String
  localAddr : String
  hostHeaderRewrite : String
  requestHeaders : HeaderOpsH
  enableHTTP2 : Option Loc
  crtPath : String
  keyPath : String
  deriving DecidableEq, Repr

/-- Clone of HTTPS2HTTPSPluginOptions (lines 184-192). -/
def HTTPS2HTTPSPluginOptionsH.clone (h : Heap) (o : HTTPS2HTTPSPluginOptionsH) :
    Heap × HTTPS2HTTPSPluginOptionsH :=
  let p := HeaderOpsH.clone h o.requestHeaders
  let q := cloneRef p.1 o.enableHTTP2
  (q.1, { o with requestHeaders := p.2, enableHTTP2 := q.2 })

/-- HTTP2HTTPPluginOptions at reference level. -/
structure HTTP2HTTPPluginOptionsH where
  type : String
  localAddr : String
  hostHeaderRewrite : String
  requestHeaders : HeaderOpsH
  deriving DecidableEq, Repr

/-- Clone of HTTP2HTTPPluginOptions (lines 203-210). -/
def HTTP2HTTPPluginOptionsH.clone (h : Heap) (o : HTTP2HTTPPluginOptionsH) :
    Heap × HTTP2HTTPPluginOptionsH :=
  let p := HeaderOpsH.clone h o.requestHeaders
  (p.1, { o with requestHeaders := p.2 })

/-- The client plugin options union at reference level. The variants built of
plain strings only (http_proxy, socks5, static_file, unix_domain_socket,
tls2raw, virtual_net) clone by the shallow copy out := *o (lines 138-144,
220-226, 238-244, 253-259, 270-276, 284-290); since that copy is always a
fresh struct, they are carried as values and own no heap location. -/
inductive ClientPluginOptionsH where
  | http2https (o : HTTP2HTTPSPluginOptionsH)
  | httpProxy (o : HTTPProxyPluginOptionsV)
  | https2http (o : HTTPS2HTTPPluginOptionsH)
  | https2https (o : HTTPS2HTTPSPluginOptionsH)
  | http2http (o : HTTP2HTTPPluginOptionsH)
  | socks5 (o : Socks5PluginOptionsV)
  | staticFile (o : StaticFilePluginOptionsV)
  | unixDomainSocket (o : UnixDomainSocketPluginOptionsV)
  | tls2raw (o : TLS2RawPluginOptionsV)
  | virtualNet (o : VirtualNetPluginOptionsV)
  deriving DecidableEq, Repr

def ClientPluginOptionsH.refs : ClientPluginOptionsH → List (Option Loc)
  | ClientPluginOptionsH.http2https o => o.requestHeaders.refs
  | ClientPluginOptionsH.https2http o => o.requestHeaders.refs ++ [o.enableHTTP2]
  | ClientPluginOptionsH.https2https o => o.requestHeaders.refs ++ [o.enableHTTP2]
  | ClientPluginOptionsH.http2http o => o.requestHeaders.refs
  | _ => []

/-- Clone dispatch over the plugin options union (each variant's Clone from
src/pkg/config/v1/proxy_plugin.go). -/
def ClientPluginOptionsH.clone (h : Heap) :
    ClientPluginOptionsH → Heap × ClientPluginOptionsH
  | ClientPluginOptionsH.http2https o =>
    let p := o.clone h
    (p.1, ClientPluginOptionsH.http2https p.2)
  | ClientPluginOptionsH.https2http o =>
    let p := o.clone h
    (p.1, ClientPluginOptionsH.https2http p.2)
  | ClientPluginOptionsH.https2https o =>
    let p := o.clone h
    (p.1, ClientPluginOptionsH.https2https p.2)
  | ClientPluginOptionsH.http2http o =>
    let p := o.clone h
    (p.1, ClientPluginOptionsH.http2http p.2)
  | o => (h, o)

/-- TypedClientPluginOptions at reference level: the type tag and the payload
behind the interface (none = nil). -/
structure TypedClientPluginOptionsH where
  type : String
  options : Option ClientPluginOptionsH
  deriving DecidableEq, Repr

def TypedClientPluginOptionsH.refs (c : TypedClientPluginOptionsH) :
    List (Option Loc) :=
  match c.options with
  | none => []
  | some o => o.refs

/-- Clone of TypedClientPluginOptions (src/pkg/config/v1/proxy_plugin.go,
lines 65-71): copy the wrapper, and clone the payload when it is not nil. -/
def TypedClientPluginOptionsH.clone (h : Heap) (c : TypedClientPluginOptionsH) :
    Heap × TypedClientPluginOptionsH :=
  match c.options with
  | none => (h, c)
  | some o =>
    let p := o.clone h
    (p.1, { c with options := some p.2 })

/-- A proxy config at reference level, modelled on the HTTP-family variant
exercised by TestProxyCloneDeepCopy: base fields (enabled pointer,
annotation and metadata maps, health-check header slice, plugin), the
domain/location lists and the header-rewrite operations. -/
structure ProxyConfigH where
  name : String
  type : String
  enabled : Option Loc
  annotations : Option Loc
  metadatas : Option Loc
  healthCheckType : String
  healthCheckHTTPHeaders : Option Loc
  plugin : TypedClientPluginOptionsH
  customDomains : Option Loc
  subDomain : String
  locations : Option Loc
  requestHeaders : HeaderOpsH
  responseHeaders : HeaderOpsH
  deriving DecidableEq, Repr

def ProxyConfigH.refs (v : ProxyConfigH) : List (Option Loc) :=
  [v.enabled, v.annotations, v.metadatas, v.healthCheckHTTPHeaders]
  ++ v.plugin.refs
  ++ [v.customDomains, v.locations]
  ++ v.requestHeaders.refs
  ++ v.responseHeaders.refs

/-- Modelled from the spec: the config-level deep clone of a proxy config
(Clone(variant) returns a deep-independent copy): every reference-typed
component is copied into fresh cells, the plugin through its own Clone. -/
def ProxyConfigH.clone (h : Heap) (v : ProxyConfigH) : Heap × ProxyConfigH :=
  let p1 := cloneRef h v.enabled
  let p2 := cloneRef p1.1 v.annotations
  let p3 := cloneRef p2.1 v.metadatas
  let p4 := cloneRef p3.1 v.healthCheckHTTPHeaders
  let p5 := TypedClientPluginOptionsH.clone p4.1 v.plugin
  let p6 := cloneRef p5.1 v.customDomains
  let p7 := cloneRef p6.1 v.locations
  let p8 := HeaderOpsH.clone p7.1 v.requestHeaders
  let p9 := HeaderOpsH.clone p8.1 v.responseHeaders
  (p9.1, { v with
    enabled := p1.2, annotations := p2.2, metadatas := p3.2,
    healthCheckHTTPHeaders := p4.2, plugin := p5.2, customDomains := p6.2,
    locations := p7.2, requestHeaders := p8.2, responseHeaders := p9.2 })

/-- The visitor plugin options union at reference level: the virtual_net
visitor plugin holds plain fields only. -/
inductive VisitorPluginOptionsH where
  | virtualNet (destinationIP : String)
  deriving DecidableEq, Repr

/-- TypedVisitorPluginOptions at reference level. -/
structure TypedVisitorPluginOptionsH where
  type : String
  options : Option VisitorPluginOptionsH
  deriving DecidableEq, Repr

/-- A visitor config at reference level, modelled on the xtcp variant of
TestVisitorCloneDeepCopy: enabled pointer, plain base fields, visitor plugin
and the NAT-traversal sub-config pointer. -/
structure VisitorConfigH where
  name : String
  type : String
  enabled : Option Loc
  serverName : String
  bindPort : Nat
  plugin : TypedVisitorPluginOptionsH
  natTraversal : Option Loc
  deriving DecidableEq, Repr

def VisitorConfigH.refs (v : VisitorConfigH) : List (Option Loc) :=
  [v.enabled, v.natTraversal]

/-- Modelled from the spec: the config-level deep clone of a visitor config:
fresh cells for the enabled pointer and the NAT-traversal sub-config; the
visitor plugin payload is a fresh struct copy. -/
def VisitorConfigH.clone (h : Heap) (v : VisitorConfigH) : Heap × VisitorConfigH :=
  let p1 := cloneRef h v.enabled
  let p2 := cloneRef p1.1 v.natTraversal
  (p2.1, { v with enabled := p1.2, natTraversal := p2.2 })

/-- A value with its reference identities erased: what remains is exactly the
plain (by-value) part of the config. Two values with equal scrubs and
positionally equal reference reads are field-equal. -/
def HeaderOpsH.scrub (_ : HeaderOpsH) : HeaderOpsH :=
  HeaderOpsH.mk none none

def HTTP2HTTPSPluginOptionsH.scrub (o : HTTP2HTTPSPluginOptionsH) :
    HTTP2HTTPSPluginOptionsH :=
  { o with requestHeaders := HeaderOpsH.mk none none }

def HTTPS2HTTPPluginOptionsH.scrub (o : HTTPS2HTTPPluginOptionsH) :
    HTTPS2HTTPPluginOptionsH :=
  { o with requestHeaders := HeaderOpsH.mk none none, enableHTTP2 := none }

def HTTPS2HTTPSPluginOptionsH.scrub (o : HTTPS2HTTPSPluginOptionsH) :
    HTTPS2HTTPSPluginOptionsH :=
  { o with requestHeaders := HeaderOpsH.mk none none, enableHTTP2 := none }

def HTTP2HTTPPluginOptionsH.scrub (o : HTTP2HTTPPluginOptionsH) :
    HTTP2HTTPPluginOptionsH :=
  { o with requestHeaders := HeaderOpsH.mk none none }

def ClientPluginOptionsH.scrub : ClientPluginOptionsH → ClientPluginOptionsH
  | ClientPluginOptionsH.http2https o => ClientPluginOptionsH.http2https o.scrub
  | ClientPluginOptionsH.https2http o => ClientPluginOptionsH.https2http o.scrub
  | ClientPluginOptionsH.https2https o => ClientPluginOptionsH.https2https o.scrub
  | ClientPluginOptionsH.http2http o => ClientPluginOptionsH.http2http o.scrub
  | o => o

def TypedClientPluginOptionsH.scrub (c : TypedClientPluginOptionsH) :
    TypedClientPluginOptionsH :=
  { c with options := c.options.map ClientPluginOptionsH.scrub }

def ProxyConfigH.scrub (v : ProxyConfigH) : ProxyConfigH :=
  { v with
    enabled := none, annotations := none, metadatas := none,
    healthCheckHTTPHeaders := none, plugin := v.plugin.scrub,
    customDomains := none, locations := none,
    requestHeaders := HeaderOpsH.mk none none,
    responseHeaders := HeaderOpsH.mk none none }

def VisitorConfigH.scrub (v : VisitorConfigH) : VisitorConfigH :=
  { v with enabled := none, natTraversal := none }

/-- A concrete heap holding the reference cells of the example proxy and
visitor below (the configuration exercised by TestProxyCloneDeepCopy and
TestVisitorCloneDeepCopy). -/
def exHeap : Heap :=
  Heap.mk 12 (fun ℓ =>
    if ℓ = 0 then some (Cell.bcell true)
    else if ℓ = 1 then some (Cell.smap [("a", "1")])
    else if ℓ = 2 then some (Cell.smap [("m", "1")])
    else if ℓ = 3 then some (Cell.hlist [("X-Test", "v1")])
    else if ℓ = 4 then some (Cell.smap [("k", "v")])
    else if ℓ = 5 then some (Cell.bcell true)
    else if ℓ = 6 then some (Cell.slist ["a.example.com"])
    else if ℓ = 7 then some (Cell.slist ["/api"])
    else if ℓ = 8 then some (Cell.smap [("h1", "v1")])
    else if ℓ = 9 then some (Cell.smap [("h2", "v2")])
    else if ℓ = 10 then some (Cell.bcell true)
    else if ℓ = 11 then some (Cell.natCell true)
    else none)

/-- The http proxy config of TestProxyCloneDeepCopy, at reference level. -/
def exProxy : ProxyConfigH :=
  ProxyConfigH.mk "p1" "http" (some 0) (some 1) (some 2) "http" (some 3)
    (TypedClientPluginOptionsH.mk "https2http"
      (some (ClientPluginOptionsH.https2http
        (HTTPS2HTTPPluginOptionsH.mk "https2http" "" ""
          (HeaderOpsH.mk (some 4) none) (some 5) "" ""))))
    (some 6) "a" (some 7) (HeaderOpsH.mk (some 8) none) (HeaderOpsH.mk (some 9) none)

/-- The xtcp visitor config of TestVisitorCloneDeepCopy, at reference level. -/
def exVisitor : VisitorConfigH :=
  VisitorConfigH.mk "v1" "xtcp" (some 10) "server" 7000
    (TypedVisitorPluginOptionsH.mk "virtual_net"
      (some (VisitorPluginOptionsH.virtualNet "10.0.0.1")))
    (some 11)

theorem CloneStep.rfl (h : Heap) : CloneStep h h :=
  ⟨Nat.le_refl _, fun _ _ => by rfl⟩

theorem CloneStep.trans {h1 h2 h3 : Heap} (a : CloneStep h1 h2)
    (b : CloneStep h2 h3) : CloneStep h1 h3 := by
  refine ⟨Nat.le_trans a.1 b.1, fun ℓ hl => ?_⟩
  rw [b.2 ℓ (Nat.lt_of_lt_of_le hl a.1), a.2 ℓ hl]

theorem readRef_of_cloneStep {h h' : Heap} {r : Option Loc}
    (st : CloneStep h h') (hlt : ∀ ℓ ∈ refLocs r, ℓ < h.next) :
    readRef h' r = readRef h r := by
  cases r with
  | none => rfl
  | some ℓ =>
    simp only [readRef, Option.bind]
    exact st.2 ℓ (hlt ℓ (by simp [refLocs]))

theorem reads_of_cloneStep {h h' : Heap} {rs : List (Option Loc)}
    (st : CloneStep h h') (hwf : WfRefs h rs) :
    rs.map (readRef h') = rs.map (readRef h) := by
  apply List.map_congr_left
  intro r hr
  exact readRef_of_cloneStep st (fun ℓ hl => (hwf r hr ℓ hl).1)

theorem WfRefs.mono {h h' : Heap} (st : CloneStep h h') {rs : List (Option Loc)}
    (hwf : WfRefs h rs) : WfRefs h' rs := by
  intro r hr ℓ hl
  obtain ⟨hlt, hsome⟩ := hwf r hr ℓ hl
  exact ⟨Nat.lt_of_lt_of_le hlt st.1, by rw [st.2 ℓ hlt]; exact hsome⟩

theorem WfRefs.append_left {h : Heap} {a b : List (Option Loc)}
    (hwf : WfRefs h (a ++ b)) : WfRefs h a :=
  fun r hr => hwf r (List.mem_append_left _ hr)

theorem WfRefs.append_right {h : Heap} {a b : List (Option Loc)}
    (hwf : WfRefs h (a ++ b)) : WfRefs h b :=
  fun r hr => hwf r (List.mem_append_right _ hr)

theorem CloneOut.nil (h : Heap) : CloneOut h h [] [] :=
  ⟨CloneStep.rfl h, by simp, by simp⟩

theorem CloneOut.comp {h1 h2 h3 : Heap} {o1 n1 o2 n2 : List (Option Loc)}
    (a : CloneOut h1 h2 o1 n1) (b : CloneOut h2 h3 o2 n2)
    (hwf2 : WfRefs h1 o2) : CloneOut h1 h3 (o1 ++ o2) (n1 ++ n2) := by
  refine ⟨a.step.trans b.step, ?_, ?_⟩
  · have hn1 : n1.map (readRef h3) = n1.map (readRef h2) :=
      reads_of_cloneStep b.step (fun r hr ℓ hl =>
        ⟨(a.fresh r hr ℓ hl).2.1, (a.fresh r hr ℓ hl).2.2⟩)
    have ho2 : o2.map (readRef h2) = o2.map (readRef h1) :=
      reads_of_cloneStep a.step hwf2
    rw [List.map_append, List.map_append, hn1, a.reads, b.reads, ho2]
  · intro r hr ℓ hl
    rcases List.mem_append.mp hr with h1m | h2m
    · obtain ⟨hge, hlt, hsome⟩ := a.fresh r h1m ℓ hl
      exact ⟨hge, Nat.lt_of_lt_of_le hlt b.step.1, by rw [b.step.2 ℓ hlt]; exact hsome⟩
    · obtain ⟨hge, hlt, hsome⟩ := b.fresh r h2m ℓ hl
      exact ⟨Nat.le_trans a.step.1 hge, hlt, hsome⟩

theorem cloneRef_out (h : Heap) (r : Option Loc) (hwf : WfRefs h [r]) :
    CloneOut h (cloneRef h r).1 [r] [(cloneRef h r).2] := by
  cases r with
  | none =>
    exact ⟨CloneStep.rfl h, by simp [cloneRef], by simp [cloneRef, refLocs]⟩
  | some ℓ =>
    obtain ⟨hlt, hsome⟩ := hwf (some ℓ) (by simp) ℓ (by simp [refLocs])
    obtain ⟨c, hc⟩ := Option.isSome_iff_exists.mp hsome
    refine ⟨?_, ?_, ?_⟩
    · simp only [cloneRef, hc, Heap.alloc]
      exact ⟨Nat.le_succ _, fun k hk => by
        simp only [if_neg (Nat.ne_of_lt hk)]⟩
    · simp only [cloneRef, hc, Heap.alloc, readRef, Option.bind, List.map]
      simp [hc]
    · intro r' hr' ℓ' hl'
      simp only [cloneRef, hc, Heap.alloc, List.mem_singleton] at hr' ⊢
      subst hr'
      simp only [refLocs, List.mem_singleton] at hl'
      subst hl'
      exact ⟨Nat.le_refl _, Nat.lt_succ_self _, by simp⟩

theorem readRef_update_of_ne (h : Heap) (ℓ : Loc) (c : Cell) (r : Option Loc)
    (hne : r ≠ some ℓ) : readRef (h.update ℓ c) r = readRef h r := by
  cases r with
  | none => rfl
  | some k =>
    have : k ≠ ℓ := fun hk => hne (by rw [hk])
    simp [readRef, Heap.update, this]

theorem reads_update_of_not_mem (h : Heap) (ℓ : Loc) (c : Cell)
    (rs : List (Option Loc)) (hnm : some ℓ ∉ rs) :
    rs.map (readRef (h.update ℓ c)) = rs.map (readRef h) := by
  apply List.map_congr_left
  intro r hr
  exact readRef_update_of_ne h ℓ c r (fun he => hnm (he ▸ hr))

/-- The deep-clone contract at the reference-list level, packaged: the clone
reads field-equal to the original in the post-clone heap, owns disjoint
locations, and a write through either side's references leaves every read
through the other side unchanged. -/
theorem cloneOut_independence {h h' : Heap} {old new : List (Option Loc)}
    (hwf : WfRefs h old) (out : CloneOut h h' old new) :
    new.map (readRef h') = old.map (readRef h')
    ∧ (∀ ℓ, some ℓ ∈ new → some ℓ ∉ old)
    ∧ (∀ ℓ c, some ℓ ∈ new → old.map (readRef (h'.update ℓ c)) = old.map (readRef h'))
    ∧ (∀ ℓ c, some ℓ ∈ old → new.map (readRef (h'.update ℓ c)) = new.map (readRef h')) := by
  have hdisj : ∀ ℓ, some ℓ ∈ new → some ℓ ∉ old := by
    intro ℓ hn ho
    have hge := (out.fresh (some ℓ) hn ℓ (by simp [refLocs])).1
    have hlt := (hwf (some ℓ) ho ℓ (by simp [refLocs])).1
    exact absurd hlt (Nat.not_lt.mpr hge)
  refine ⟨?_, hdisj, ?_, ?_⟩
  · rw [out.reads, reads_of_cloneStep out.step hwf]
  · intro ℓ c hn
    exact reads_update_of_not_mem h' ℓ c old (hdisj ℓ hn)
  · intro ℓ c ho
    apply reads_update_of_not_mem
    intro hn
    exact hdisj ℓ hn ho

theorem WfRefs.of_subset {h : Heap} {a b : List (Option Loc)}
    (hs : ∀ r ∈ a, r ∈ b) (hwf : WfRefs h b) : WfRefs h a :=
  fun r hr => hwf r (hs r hr)

theorem headerOps_clone_out (h : Heap) (x : HeaderOpsH) (hwf : WfRefs h x.refs) :
    CloneOut h (x.clone h).1 x.refs (x.clone h).2.refs := by
  have hw1 : WfRefs h [x.set] :=
    WfRefs.of_subset (by intro r hr; simp at hr; simp [HeaderOpsH.refs, hr]) hwf
  have hw2 : WfRefs h [x.remove] :=
    WfRefs.of_subset (by intro r hr; simp at hr; simp [HeaderOpsH.refs, hr]) hwf
  have c1 := cloneRef_out h x.set hw1
  have c2 := cloneRef_out (cloneRef h x.set).1 x.remove (WfRefs.mono c1.step hw2)
  have d := CloneOut.comp c1 c2 hw2
  simpa [HeaderOpsH.clone, HeaderOpsH.refs] using d

theorem http2https_plugin_clone_out (h : Heap) (o : HTTP2HTTPSPluginOptionsH)
    (hwf : WfRefs h o.requestHeaders.refs) :
    CloneOut h (o.clone h).1 o.requestHeaders.refs (o.clone h).2.requestHeaders.refs := by
  have d := headerOps_clone_out h o.requestHeaders hwf
  simpa [HTTP2HTTPSPluginOptionsH.clone] using d

theorem https2http_plugin_clone_out (h : Heap) (o : HTTPS2HTTPPluginOptionsH)
    (hwf : WfRefs h (o.requestHeaders.refs ++ [o.enableHTTP2])) :
    CloneOut h (o.clone h).1 (o.requestHeaders.refs ++ [o.enableHTTP2])
      ((o.clone h).2.requestHeaders.refs ++ [(o.clone h).2.enableHTTP2]) := by
  have hwh := hwf.append_left
  have hwe := hwf.append_right
  have c1 := headerOps_clone_out h o.requestHeaders hwh
  have c2 := cloneRef_out (o.requestHeaders.clone h).1 o.enableHTTP2
    (WfRefs.mono c1.step hwe)
  have d := CloneOut.comp c1 c2 hwe
  simpa [HTTPS2HTTPPluginOptionsH.clone] using d

theorem https2https_plugin_clone_out (h : Heap) (o : HTTPS2HTTPSPluginOptionsH)
    (hwf : WfRefs h (o.requestHeaders.refs ++ [o.enableHTTP2])) :
    CloneOut h (o.clone h).1 (o.requestHeaders.refs ++ [o.enableHTTP2])
      ((o.clone h).2.requestHeaders.refs ++ [(o.clone h).2.enableHTTP2]) := by
  have hwh := hwf.append_left
  have hwe := hwf.append_right
  have c1 := headerOps_clone_out h o.requestHeaders hwh
  have c2 := cloneRef_out (o.requestHeaders.clone h).1 o.enableHTTP2
    (WfRefs.mono c1.step hwe)
  have d := CloneOut.comp c1 c2 hwe
  simpa [HTTPS2HTTPSPluginOptionsH.clone] using d

theorem http2http_plugin_clone_out (h : Heap) (o : HTTP2HTTPPluginOptionsH)
    (hwf : WfRefs h o.requestHeaders.refs) :
    CloneOut h (o.clone h).1 o.requestHeaders.refs (o.clone h).2.requestHeaders.refs := by
  have d := headerOps_clone_out h o.requestHeaders hwf
  simpa [HTTP2HTTPPluginOptionsH.clone] using d

theorem clientPlugin_clone_out (h : Heap) (o : ClientPluginOptionsH)
    (hwf : WfRefs h o.refs) :
    CloneOut h (o.clone h).1 o.refs (o.clone h).2.refs := by
  cases o with
  | http2https o =>
    have d := http2https_plugin_clone_out h o
      (by simpa [ClientPluginOptionsH.refs] using hwf)
    simpa [ClientPluginOptionsH.clone, ClientPluginOptionsH.refs] using d
  | https2http o =>
    have d := https2http_plugin_clone_out h o
      (by simpa [ClientPluginOptionsH.refs] using hwf)
    simpa [ClientPluginOptionsH.clone, ClientPluginOptionsH.refs] using d
  | https2https o =>
    have d := https2https_plugin_clone_out h o
      (by simpa [ClientPluginOptionsH.refs] using hwf)
    simpa [ClientPluginOptionsH.clone, ClientPluginOptionsH.refs] using d
  | http2http o =>
    have d := http2http_plugin_clone_out h o
      (by simpa [ClientPluginOptionsH.refs] using hwf)
    simpa [ClientPluginOptionsH.clone, ClientPluginOptionsH.refs] using d
  | httpProxy o => simpa [ClientPluginOptionsH.clone, ClientPluginOptionsH.refs] using CloneOut.nil h
  | socks5 o => simpa [ClientPluginOptionsH.clone, ClientPluginOptionsH.refs] using CloneOut.nil h
  | staticFile o => simpa [ClientPluginOptionsH.clone, ClientPluginOptionsH.refs] using CloneOut.nil h
  | unixDomainSocket o => simpa [ClientPluginOptionsH.clone, ClientPluginOptionsH.refs] using CloneOut.nil h
  | tls2raw o => simpa [ClientPluginOptionsH.clone, ClientPluginOptionsH.refs] using CloneOut.nil h
  | virtualNet o => simpa [ClientPluginOptionsH.clone, ClientPluginOptionsH.refs] using CloneOut.nil h

theorem typedClientPlugin_clone_out (h : Heap) (c : TypedClientPluginOptionsH)
    (hwf : WfRefs h c.refs) :
    CloneOut h (c.clone h).1 c.refs (c.clone h).2.refs := by
  cases hc : c.options with
  | none =>
    simp only [TypedClientPluginOptionsH.clone, TypedClientPluginOptionsH.refs, hc]
    exact CloneOut.nil h
  | some o =>
    have d := clientPlugin_clone_out h o
      (by simpa [TypedClientPluginOptionsH.refs, hc] using hwf)
    simpa [TypedClientPluginOptionsH.clone, TypedClientPluginOptionsH.refs, hc] using d

theorem proxyConfig_clone_out (h : Heap) (v : ProxyConfigH) (hwf : WfRefs h v.refs) :
    CloneOut h (v.clone h).1 v.refs (v.clone h).2.refs := by
  have w1 : WfRefs h [v.enabled] :=
    WfRefs.of_subset (by intro r hr; simp at hr; simp [ProxyConfigH.refs, hr]) hwf
  have w2 : WfRefs h [v.annotations] :=
    WfRefs.of_subset (by intro r hr; simp at hr; simp [ProxyConfigH.refs, hr]) hwf
  have w3 : WfRefs h [v.metadatas] :=
    WfRefs.of_subset (by intro r hr; simp at hr; simp [ProxyConfigH.refs, hr]) hwf
  have w4 : WfRefs h [v.healthCheckHTTPHeaders] :=
    WfRefs.of_subset (by intro r hr; simp at hr; simp [ProxyConfigH.refs, hr]) hwf
  have w5 : WfRefs h v.plugin.refs :=
    WfRefs.of_subset (by intro r hr; simp [ProxyConfigH.refs, hr]) hwf
  have w6 : WfRefs h [v.customDomains] :=
    WfRefs.of_subset (by intro r hr; simp at hr; simp [ProxyConfigH.refs, hr]) hwf
  have w7 : WfRefs h [v.locations] :=
    WfRefs.of_subset (by intro r hr; simp at hr; simp [ProxyConfigH.refs, hr]) hwf
  have w8 : WfRefs h v.requestHeaders.refs :=
    WfRefs.of_subset (by intro r hr; simp [ProxyConfigH.refs, hr]) hwf
  have w9 : WfRefs h v.responseHeaders.refs :=
    WfRefs.of_subset (by intro r hr; simp [ProxyConfigH.refs, hr]) hwf
  have c1 := cloneRef_out h v.enabled w1
  have c2 := cloneRef_out _ v.annotations (WfRefs.mono c1.step w2)
  have d2 := CloneOut.comp c1 c2 w2
  have c3 := cloneRef_out _ v.metadatas (WfRefs.mono d2.step w3)
  have d3 := CloneOut.comp d2 c3 w3
  have c4 := cloneRef_out _ v.healthCheckHTTPHeaders (WfRefs.mono d3.step w4)
  have d4 := CloneOut.comp d3 c4 w4
  have c5p := typedClientPlugin_clone_out _ v.plugin (WfRefs.mono d4.step w5)
  have d5 := CloneOut.comp d4 c5p w5
  have c6 := cloneRef_out _ v.customDomains (WfRefs.mono d5.step w6)
  have d6 := CloneOut.comp d5 c6 w6
  have c7 := cloneRef_out _ v.locations (WfRefs.mono d6.step w7)
  have d7 := CloneOut.comp d6 c7 w7
  have c8 := headerOps_clone_out _ v.requestHeaders (WfRefs.mono d7.step w8)
  have d8 := CloneOut.comp d7 c8 w8
  have c9 := headerOps_clone_out _ v.responseHeaders (WfRefs.mono d8.step w9)
  have d9 := CloneOut.comp d8 c9 w9
  simpa [ProxyConfigH.clone, ProxyConfigH.refs, List.append_assoc] using d9

theorem visitorConfig_clone_out (h : Heap) (v : VisitorConfigH) (hwf : WfRefs h v.refs) :
    CloneOut h (v.clone h).1 v.refs (v.clone h).2.refs := by
  have w1 : WfRefs h [v.enabled] :=
    WfRefs.of_subset (by intro r hr; simp at hr; simp [VisitorConfigH.refs, hr]) hwf
  have w2 : WfRefs h [v.natTraversal] :=
    WfRefs.of_subset (by intro r hr; simp at hr; simp [VisitorConfigH.refs, hr]) hwf
  have c1 := cloneRef_out h v.enabled w1
  have c2 := cloneRef_out _ v.natTraversal (WfRefs.mono c1.step w2)
  have d := CloneOut.comp c1 c2 w2
  simpa [VisitorConfigH.clone, VisitorConfigH.refs] using d

theorem headerOps_clone_scrub (h : Heap) (x : HeaderOpsH) :
    (x.clone h).2.scrub = x.scrub := rfl

theorem clientPlugin_clone_scrub (h : Heap) (o : ClientPluginOptionsH) :
    (o.clone h).2.scrub = o.scrub := by
  cases o <;> rfl

theorem typedClientPlugin_clone_scrub (h : Heap) (c : TypedClientPluginOptionsH) :
    (c.clone h).2.scrub = c.scrub := by
  cases c with
  | mk t opts =>
    cases opts with
    | none => rfl
    | some o =>
      simp [TypedClientPluginOptionsH.clone, TypedClientPluginOptionsH.scrub,
        clientPlugin_clone_scrub]

theorem proxyConfig_clone_scrub (h : Heap) (v : ProxyConfigH) :
    (v.clone h).2.scrub = v.scrub := by
  cases v with
  | mk name type enabled annotations metadatas hct hchh plugin cd sd lo rq rs =>
    simp [ProxyConfigH.clone, ProxyConfigH.scrub, typedClientPlugin_clone_scrub]

theorem visitorConfig_clone_scrub (h : Heap) (v : VisitorConfigH) :
    (v.clone h).2.scrub = v.scrub := by
  cases v with
  | mk name type enabled sn bp plugin nat =>
    simp [VisitorConfigH.clone, VisitorConfigH.scrub]

theorem addNamed_find {α : Type} (nameOf : α → String) (l l' : List α) (cfg : α)
    (h : addNamed nameOf l cfg = Except.ok l') :
    findNamed nameOf l' (nameOf cfg) = some cfg := by
  unfold addNamed at h
  split at h
  · exact absurd h (by simp)
  · next hany =>
    rw [Except.ok.injEq] at h
    subst h
    rw [Bool.not_eq_true] at hany
    unfold findNamed
    induction l with
    | nil => simp
    | cons a t ih =>
      simp only [List.any_cons, Bool.or_eq_false_iff] at hany
      have ha : (nameOf a = nameOf cfg) = False := by
        simpa using hany.1
      simp only [List.cons_append, List.find?_cons, ha]
      simpa using ih hany.2

theorem updateNamed_find {α : Type} (nameOf : α → String) (l l' : List α) (cfg : α)
    (h : updateNamed nameOf l cfg = Except.ok l') :
    findNamed nameOf l' (nameOf cfg) = some cfg := by
  unfold updateNamed at h
  split at h
  · next hany =>
    rw [Except.ok.injEq] at h
    subst h
    unfold findNamed
    induction l with
    | nil => simp at hany
    | cons a t ih =>
      by_cases ha : nameOf a = nameOf cfg
      · simp [List.find?, ha]
      · simp only [List.any_cons] at hany
        have : t.any (fun c => nameOf c = nameOf cfg) = true := by
          simpa [ha] using hany
        simpa [List.find?, ha] using ih this
  · exact absurd h (by simp)

theorem removeNamed_find {α : Type} (nameOf : α → String) (l l' : List α) (nm : String)
    (h : removeNamed nameOf l nm = Except.ok l') :
    findNamed nameOf l' nm = none := by
  unfold removeNamed at h
  split at h
  · rw [Except.ok.injEq] at h
    subst h
    unfold findNamed
    rw [List.find?_eq_none]
    intro x hx
    have := (List.mem_filter.mp hx).2
    simpa using this
  · exact absurd h (by simp)

theorem StoreState.addProxy_get {s sC : StoreState} {cfg : PCfg}
    (h : s.addProxy cfg = Except.ok sC) : sC.getProxy cfg.name = some cfg := by
  unfold StoreState.addProxy at h
  cases ha : addNamed PCfg.name s.proxies cfg with
  | error e => rw [ha] at h; exact absurd h (by simp [Except.map])
  | ok l =>
    rw [ha] at h
    simp only [Except.map, Except.ok.injEq] at h
    subst h
    exact addNamed_find PCfg.name s.proxies l cfg ha

theorem StoreState.updateProxy_get {s sU : StoreState} {cfg : PCfg}
    (h : s.updateProxy cfg = Except.ok sU) : sU.getProxy cfg.name = some cfg := by
  unfold StoreState.updateProxy at h
  cases ha : updateNamed PCfg.name s.proxies cfg with
  | error e => rw [ha] at h; exact absurd h (by simp [Except.map])
  | ok l =>
    rw [ha] at h
    simp only [Except.map, Except.ok.injEq] at h
    subst h
    exact updateNamed_find PCfg.name s.proxies l cfg ha

theorem StoreState.removeProxy_get {s sD : StoreState} {nm : String}
    (h : s.removeProxy nm = Except.ok sD) : sD.getProxy nm = none := by
  unfold StoreState.removeProxy at h
  cases ha : removeNamed PCfg.name s.proxies nm with
  | error e => rw [ha] at h; exact absurd h (by simp [Except.map])
  | ok l =>
    rw [ha] at h
    simp only [Except.map, Except.ok.injEq] at h
    subst h
    exact removeNamed_find PCfg.name s.proxies l nm ha

theorem StoreState.addVisitor_get {s sC : StoreState} {cfg : VCfg}
    (h : s.addVisitor cfg = Except.ok sC) : sC.getVisitor cfg.name = some cfg := by
  unfold StoreState.addVisitor at h
  cases ha : addNamed VCfg.name s.visitors cfg with
  | error e => rw [ha] at h; exact absurd h (by simp [Except.map])
  | ok l =>
    rw [ha] at h
    simp only [Except.map, Except.ok.injEq] at h
    subst h
    exact addNamed_find VCfg.name s.visitors l cfg ha

theorem StoreState.updateVisitor_get {s sU : StoreState} {cfg : VCfg}
    (h : s.updateVisitor cfg = Except.ok sU) : sU.getVisitor cfg.name = some cfg := by
  unfold StoreState.updateVisitor at h
  cases ha : updateNamed VCfg.name s.visitors cfg with
  | error e => rw [ha] at h; exact absurd h (by simp [Except.map])
  | ok l =>
    rw [ha] at h
    simp only [Except.map, Except.ok.injEq] at h
    subst h
    exact updateNamed_find VCfg.name s.visitors l cfg ha

theorem StoreState.removeVisitor_get {s sD : StoreState} {nm : String}
    (h : s.removeVisitor nm = Except.ok sD) : sD.getVisitor nm = none := by
  unfold StoreState.removeVisitor at h
  cases ha : removeNamed VCfg.name s.visitors nm with
  | error e => rw [ha] at h; exact absurd h (by simp [Except.map])
  | ok l =>
    rw [ha] at h
    simp only [Except.map, Except.ok.injEq] at h
    subst h
    exact removeNamed_find VCfg.name s.visitors l nm ha

/-- C1: for every store mutation (CreateStoreProxy, UpdateStoreProxy,
DeleteStoreProxy and the visitor equivalents), when the Store Source mutation
itself succeeds but the tunnel-engine apply step fails, the call returns an
ApplyConfig error and the store mutation is kept: a later
GetStoreProxy/GetStoreVisitor of that name still reflects the created,
updated, or deleted entry. -/
theorem c1_store_mutation_kept_on_apply_failure
    (validP : PCfg → Bool) (validV : VCfg → Bool) (s : StoreState)
    (cfgC cfgU : PCfg) (nameD : String) (cfgVC cfgVU : VCfg) (nameVD : String)
    (sC sU sD sVC sVU sVD : StoreState)
    (hvC : validP cfgC = true) (hnC : cfgC.name ≠ "")
    (haC : s.addProxy cfgC = Except.ok sC)
    (hvU : validP cfgU = true) (hnU : cfgU.name ≠ "")
    (haU : s.updateProxy cfgU = Except.ok sU)
    (hnD : nameD ≠ "") (haD : s.removeProxy nameD = Except.ok sD)
    (hvVC : validV cfgVC = true) (hnVC : cfgVC.name ≠ "")
    (haVC : s.addVisitor cfgVC = Except.ok sVC)
    (hvVU : validV cfgVU = true) (hnVU : cfgVU.name ≠ "")
    (haVU : s.updateVisitor cfgVU = Except.ok sVU)
    (hnVD : nameVD ≠ "") (haVD : s.removeVisitor nameVD = Except.ok sVD) :
    (CreateStoreProxy validP false (some s) cfgC
        = MResult.mk (some sC) (some MErr.applyConfig) true
      ∧ GetStoreProxy (some sC) cfgC.name = Except.ok cfgC)
    ∧ (UpdateStoreProxy validP false (some s) cfgU.name (some cfgU)
        = MResult.mk (some sU) (some MErr.applyConfig) true
      ∧ GetStoreProxy (some sU) cfgU.name = Except.ok cfgU)
    ∧ (DeleteStoreProxy false (some s) nameD
        = MResult.mk (some sD) (some MErr.applyConfig) true
      ∧ GetStoreProxy (some sD) nameD = Except.error MErr.notFound)
    ∧ (CreateStoreVisitor validV false (some s) cfgVC
        = MResult.mk (some sVC) (some MErr.applyConfig) true
      ∧ GetStoreVisitor (some sVC) cfgVC.name = Except.ok cfgVC)
    ∧ (UpdateStoreVisitor validV false (some s) cfgVU.name (some cfgVU)
        = MResult.mk (some sVU) (some MErr.applyConfig) true
      ∧ GetStoreVisitor (some sVU) cfgVU.name = Except.ok cfgVU)
    ∧ (DeleteStoreVisitor false (some s) nameVD
        = MResult.mk (some sVD) (some MErr.applyConfig) true
      ∧ GetStoreVisitor (some sVD) nameVD = Except.error MErr.notFound) := by
  refine ⟨⟨?_, ?_⟩, ⟨?_, ?_⟩, ⟨?_, ?_⟩, ⟨?_, ?_⟩, ⟨?_, ?_⟩, ⟨?_, ?_⟩⟩
  · simp [CreateStoreProxy, hvC, withStoreMutationAndReload, haC]
  · simp [GetStoreProxy, hnC, StoreState.addProxy_get haC]
  · simp [UpdateStoreProxy, hnU, hvU, withStoreMutationAndReload, haU]
  · simp [GetStoreProxy, hnU, StoreState.updateProxy_get haU]
  · simp [DeleteStoreProxy, hnD, withStoreMutationAndReload, haD]
  · simp [GetStoreProxy, hnD, StoreState.removeProxy_get haD]
  · simp [CreateStoreVisitor, hvVC, withStoreMutationAndReload, haVC]
  · simp [GetStoreVisitor, hnVC, StoreState.addVisitor_get haVC]
  · simp [UpdateStoreVisitor, hnVU, hvVU, withStoreMutationAndReload, haVU]
  · simp [GetStoreVisitor, hnVU, StoreState.updateVisitor_get haVU]
  · simp [DeleteStoreVisitor, hnVD, withStoreMutationAndReload, haVD]
  · simp [GetStoreVisitor, hnVD, StoreState.removeVisitor_get haVD]

/-- C1 witness: the durable-intent property exercised at a concrete store
holding proxy p1 and visitor v1, with the apply step failing. -/
theorem c1_store_mutation_kept_on_apply_failure_witness :
    (CreateStoreProxy (fun _ => true) false
        (some (StoreState.mk [PCfg.mk "p1" none 1] [VCfg.mk "v1" none "s1"]))
        (PCfg.mk "p2" none 2)
        = MResult.mk
            (some (StoreState.mk [PCfg.mk "p1" none 1, PCfg.mk "p2" none 2]
              [VCfg.mk "v1" none "s1"]))
            (some MErr.applyConfig) true
      ∧ GetStoreProxy
          (some (StoreState.mk [PCfg.mk "p1" none 1, PCfg.mk "p2" none 2]
            [VCfg.mk "v1" none "s1"])) "p2"
        = Except.ok (PCfg.mk "p2" none 2))
    ∧ (UpdateStoreProxy (fun _ => true) false
        (some (StoreState.mk [PCfg.mk "p1" none 1] [VCfg.mk "v1" none "s1"]))
        "p1" (some (PCfg.mk "p1" (some true) 3))
        = MResult.mk
            (some (StoreState.mk [PCfg.mk "p1" (some true) 3] [VCfg.mk "v1" none "s1"]))
            (some MErr.applyConfig) true
      ∧ GetStoreProxy
          (some (StoreState.mk [PCfg.mk "p1" (some true) 3] [VCfg.mk "v1" none "s1"])) "p1"
        = Except.ok (PCfg.mk "p1" (some true) 3))
    ∧ (DeleteStoreProxy false
        (some (StoreState.mk [PCfg.mk "p1" none 1] [VCfg.mk "v1" none "s1"])) "p1"
        = MResult.mk (some (StoreState.mk [] [VCfg.mk "v1" none "s1"]))
            (some MErr.applyConfig) true
      ∧ GetStoreProxy (some (StoreState.mk [] [VCfg.mk "v1" none "s1"])) "p1"
        = Except.error MErr.notFound)
    ∧ (CreateStoreVisitor (fun _ => true) false
        (some (StoreState.mk [PCfg.mk "p1" none 1] [VCfg.mk "v1" none "s1"]))
        (VCfg.mk "v2" none "s2")
        = MResult.mk
            (some (StoreState.mk [PCfg.mk "p1" none 1]
              [VCfg.mk "v1" none "s1", VCfg.mk "v2" none "s2"]))
            (some MErr.applyConfig) true
      ∧ GetStoreVisitor
          (some (StoreState.mk [PCfg.mk "p1" none 1]
            [VCfg.mk "v1" none "s1", VCfg.mk "v2" none "s2"])) "v2"
        = Except.ok (VCfg.mk "v2" none "s2"))
    ∧ (UpdateStoreVisitor (fun _ => true) false
        (some (StoreState.mk [PCfg.mk "p1" none 1] [VCfg.mk "v1" none "s1"]))
        "v1" (some (VCfg.mk "v1" (some true) "s3"))
        = MResult.mk
            (some (StoreState.mk [PCfg.mk "p1" none 1] [VCfg.mk "v1" (some true) "s3"]))
            (some MErr.applyConfig) true
      ∧ GetStoreVisitor
          (some (StoreState.mk [PCfg.mk "p1" none 1] [VCfg.mk "v1" (some true) "s3"])) "v1"
        = Except.ok (VCfg.mk "v1" (some true) "s3"))
    ∧ (DeleteStoreVisitor false
        (some (StoreState.mk [PCfg.mk "p1" none 1] [VCfg.mk "v1" none "s1"])) "v1"
        = MResult.mk (some (StoreState.mk [PCfg.mk "p1" none 1] []))
            (some MErr.applyConfig) true
      ∧ GetStoreVisitor (some (StoreState.mk [PCfg.mk "p1" none 1] [])) "v1"
        = Except.error MErr.notFound) :=
  c1_store_mutation_kept_on_apply_failure
    (fun _ => true) (fun _ => true)
    (StoreState.mk [PCfg.mk "p1" none 1] [VCfg.mk "v1" none "s1"])
    (PCfg.mk "p2" none 2) (PCfg.mk "p1" (some true) 3) "p1"
    (VCfg.mk "v2" none "s2") (VCfg.mk "v1" (some true) "s3") "v1"
    (StoreState.mk [PCfg.mk "p1" none 1, PCfg.mk "p2" none 2] [VCfg.mk "v1" none "s1"])
    (StoreState.mk [PCfg.mk "p1" (some true) 3] [VCfg.mk "v1" none "s1"])
    (StoreState.mk [] [VCfg.mk "v1" none "s1"])
    (StoreState.mk [PCfg.mk "p1" none 1] [VCfg.mk "v1" none "s1", VCfg.mk "v2" none "s2"])
    (StoreState.mk [PCfg.mk "p1" none 1] [VCfg.mk "v1" (some true) "s3"])
    (StoreState.mk [PCfg.mk "p1" none 1] [])
    rfl (by decide) rfl
    rfl (by decide) rfl
    (by decide) rfl
    rfl (by decide) rfl
    rfl (by decide) rfl
    (by decide) rfl

/-- C2: for every ReloadFromFile(strict) call with a config file path set: a
load/decode failure and a validation failure each return InvalidArgument with
UpdateConfigSource never invoked; when validation succeeds and
UpdateConfigSource fails, the call returns the distinct ApplyConfig error.
The empty-path case is also InvalidArgument with nothing applied. -/
theorem c2_reload_error_kinds (path : String) (load : Bool → Except String LoadResult)
    (validOk : LoadResult → Bool) (strict : Bool) :
    (∀ validOk2 updateOk strict2,
      ReloadFromFile "" load validOk2 updateOk strict2
        = ReloadResult.mk (some MErr.invalidArgument) false)
    ∧ (path ≠ "" → ∀ e, load strict = Except.error e → ∀ updateOk,
      ReloadFromFile path load validOk updateOk strict
        = ReloadResult.mk (some MErr.invalidArgument) false)
    ∧ (path ≠ "" → ∀ r, load strict = Except.ok r → validOk r = false → ∀ updateOk,
      ReloadFromFile path load validOk updateOk strict
        = ReloadResult.mk (some MErr.invalidArgument) false)
    ∧ (path ≠ "" → ∀ r, load strict = Except.ok r → validOk r = true →
      ReloadFromFile path load validOk false strict
        = ReloadResult.mk (some MErr.applyConfig) true) := by
  refine ⟨?_, ?_, ?_, ?_⟩
  · intro validOk2 updateOk strict2
    simp [ReloadFromFile]
  · intro hp e he updateOk
    simp [ReloadFromFile, hp, he]
  · intro hp r hr hv updateOk
    simp [ReloadFromFile, hp, hr, hv]
  · intro hp r hr hv
    simp [ReloadFromFile, hp, hr, hv]

/-- C2 witness: the three failure kinds at concrete inputs. -/
theorem c2_reload_error_kinds_witness :
    ReloadFromFile "frpc.toml" (fun _ => Except.error "decode error")
        (fun _ => true) true true
      = ReloadResult.mk (some MErr.invalidArgument) false
    ∧ ReloadFromFile "frpc.toml" (fun _ => Except.ok (LoadResult.mk [] []))
        (fun _ => false) true true
      = ReloadResult.mk (some MErr.invalidArgument) false
    ∧ ReloadFromFile "frpc.toml" (fun _ => Except.ok (LoadResult.mk [] []))
        (fun _ => true) false true
      = ReloadResult.mk (some MErr.applyConfig) true :=
  ⟨(c2_reload_error_kinds "frpc.toml" (fun _ => Except.error "decode error")
      (fun _ => true) true).2.1 (by decide) "decode error" rfl true,
   (c2_reload_error_kinds "frpc.toml" (fun _ => Except.ok (LoadResult.mk [] []))
      (fun _ => false) true).2.2.1 (by decide) (LoadResult.mk [] []) rfl rfl true,
   (c2_reload_error_kinds "frpc.toml" (fun _ => Except.ok (LoadResult.mk [] []))
      (fun _ => true) true).2.2.2 (by decide) (LoadResult.mk [] []) rfl rfl⟩

/-- C3 counterexample: the claim "every durable write replaces the whole file
via write-to-temp-then-rename, in particular WriteConfigFile" is false on the
code: WriteConfigFile performs a single in-place whole-file write of the
config path (os.WriteFile) and its trace contains no rename. -/
theorem c3_write_config_file_in_place_counterexample :
    (WriteConfigFile "./frpc.toml" "serverAddr = 1").trace
      = [FsOp.writeFile "./frpc.toml" "serverAddr = 1"]
    ∧ usesTempThenRename (WriteConfigFile "./frpc.toml" "serverAddr = 1").trace
        "./frpc.toml" = false := by
  constructor
  · rfl
  · rfl

/-- C3 amended: the Store Source durable write follows
write-to-temp-then-rename (never touching the store path in place), but
WriteConfigFile persists the config file by one in-place whole-file write of
the target, with no temp file and no rename. -/
theorem c3_write_discipline_amended (path tmp content : String)
    (htmp : tmp ≠ path) (hc : content ≠ "") :
    usesTempThenRename (storePersistTrace path tmp content) path = true
    ∧ (WriteConfigFile path content).trace = [FsOp.writeFile path content]
    ∧ usesTempThenRename (WriteConfigFile path content).trace path = false := by
  refine ⟨?_, ?_, ?_⟩
  · simp [storePersistTrace, usesTempThenRename, htmp]
  · simp [WriteConfigFile, hc]
  · simp [WriteConfigFile, usesTempThenRename, hc]

/-- C3 amended witness: the two write disciplines at a concrete path and
content. -/
theorem c3_write_discipline_amended_witness :
    usesTempThenRename (storePersistTrace "store.json" "store.json.tmp" "doc")
        "store.json" = true
    ∧ (WriteConfigFile "store.json" "doc").trace = [FsOp.writeFile "store.json" "doc"]
    ∧ usesTempThenRename (WriteConfigFile "store.json" "doc").trace "store.json" = false :=
  c3_write_discipline_amended "store.json" "store.json.tmp" "doc" (by decide) (by decide)

/-- C9: UpdateStoreProxy and UpdateStoreVisitor fail with InvalidArgument,
with the store untouched and the tunnel-engine apply never invoked, whenever
the name inside the config body differs from the URL name argument. -/
theorem c9_update_name_mismatch (store : Option StoreState)
    (validP : PCfg → Bool) (validV : VCfg → Bool)
    (nm : String) (cfgP : PCfg) (cfgV : VCfg)
    (hn : nm ≠ "") (hp : cfgP.name ≠ nm) (hv : cfgV.name ≠ nm) :
    UpdateStoreProxy validP false store nm (some cfgP)
      = MResult.mk store (some MErr.invalidArgument) false
    ∧ UpdateStoreProxy validP true store nm (some cfgP)
      = MResult.mk store (some MErr.invalidArgument) false
    ∧ UpdateStoreVisitor validV false store nm (some cfgV)
      = MResult.mk store (some MErr.invalidArgument) false
    ∧ UpdateStoreVisitor validV true store nm (some cfgV)
      = MResult.mk store (some MErr.invalidArgument) false := by
  refine ⟨?_, ?_, ?_, ?_⟩ <;> simp [UpdateStoreProxy, UpdateStoreVisitor, hn, hp, hv]

/-- C9 witness: a body named p2 sent to URL name p1 (and v2 to v1). -/
theorem c9_update_name_mismatch_witness :
    UpdateStoreProxy (fun _ => true) false
        (some (StoreState.mk [PCfg.mk "p1" none 1] [])) "p1"
        (some (PCfg.mk "p2" none 1))
      = MResult.mk (some (StoreState.mk [PCfg.mk "p1" none 1] []))
          (some MErr.invalidArgument) false
    ∧ UpdateStoreProxy (fun _ => true) true
        (some (StoreState.mk [PCfg.mk "p1" none 1] [])) "p1"
        (some (PCfg.mk "p2" none 1))
      = MResult.mk (some (StoreState.mk [PCfg.mk "p1" none 1] []))
          (some MErr.invalidArgument) false
    ∧ UpdateStoreVisitor (fun _ => true) false
        (some (StoreState.mk [PCfg.mk "p1" none 1] [])) "v1"
        (some (VCfg.mk "v2" none "s"))
      = MResult.mk (some (StoreState.mk [PCfg.mk "p1" none 1] []))
          (some MErr.invalidArgument) false
    ∧ UpdateStoreVisitor (fun _ => true) true
        (some (StoreState.mk [PCfg.mk "p1" none 1] [])) "v1"
        (some (VCfg.mk "v2" none "s"))
      = MResult.mk (some (StoreState.mk [PCfg.mk "p1" none 1] []))
          (some MErr.invalidArgument) false := by
  have h1 := c9_update_name_mismatch
    (some (StoreState.mk [PCfg.mk "p1" none 1] []))
    (fun _ => true) (fun _ => true) "p1"
    (PCfg.mk "p2" none 1) (VCfg.mk "v2" none "s")
    (by decide) (by decide) (by decide)
  have h2 := c9_update_name_mismatch
    (some (StoreState.mk [PCfg.mk "p1" none 1] []))
    (fun _ => true) (fun _ => true) "v1"
    (PCfg.mk "p2" none 1) (VCfg.mk "v2" none "s")
    (by decide) (by decide) (by decide)
  exact ⟨h1.1, h1.2.1, h2.2.2.1, h2.2.2.2⟩

/-- C4: decoding an API request body through unmarshalTypedConfig with the
per-call override false while the process-wide DisallowUnknownFields flag is
true: a well-formed body decodes successfully even when it contains an unknown
field, and on every exit path (success and decode failure alike) the
process-wide flag afterwards reads its prior value true. -/
theorem c4_per_call_override_no_flag_leak (b : ReqBody) :
    (unmarshalTypedConfig true b).2 = true
    ∧ (b.wellFormed = true → (unmarshalTypedConfig true b).1 = Except.ok ())
    ∧ (b.wellFormed = false →
        (unmarshalTypedConfig true b).1 = Except.error "parse JSON error") := by
  refine ⟨rfl, ?_, ?_⟩
  · intro hw
    simp [unmarshalTypedConfig, WithDisallowUnknownFields, decodeTypedBody, hw]
  · intro hw
    simp [unmarshalTypedConfig, WithDisallowUnknownFields, decodeTypedBody, hw]

/-- C4 witness: a well-formed body carrying an unknown field decodes under
ambient strictness true, and the flag reads true afterwards on both the
success and the failure path. -/
theorem c4_per_call_override_no_flag_leak_witness :
    (unmarshalTypedConfig true (ReqBody.mk true true)).1 = Except.ok ()
    ∧ (unmarshalTypedConfig true (ReqBody.mk true true)).2 = true
    ∧ (unmarshalTypedConfig true (ReqBody.mk false true)).2 = true :=
  ⟨(c4_per_call_override_no_flag_leak (ReqBody.mk true true)).2.1 rfl,
   (c4_per_call_override_no_flag_leak (ReqBody.mk true true)).1,
   (c4_per_call_override_no_flag_leak (ReqBody.mk false true)).1⟩

/-- C6: IsStoreProxyEnabled(name) is true exactly when the name is non-empty,
a Store Source is configured, an entry with that name exists and its Enabled
flag is unset (default true) or set to true; in particular it is false for the
empty name and when the store is disabled. -/
theorem c6_is_store_proxy_enabled (store : Option StoreState) (nm : String) :
    (IsStoreProxyEnabled store nm = true ↔
      nm ≠ "" ∧ ∃ s cfg, store = some s ∧ s.getProxy nm = some cfg ∧
        (cfg.enabled = none ∨ cfg.enabled = some true))
    ∧ IsStoreProxyEnabled store "" = false
    ∧ IsStoreProxyEnabled none nm = false := by
  refine ⟨?_, by simp [IsStoreProxyEnabled], by simp [IsStoreProxyEnabled]⟩
  by_cases hn : nm = ""
  · subst hn
    simp [IsStoreProxyEnabled]
  · cases store with
    | none => simp [IsStoreProxyEnabled, hn]
    | some s =>
      cases hg : s.getProxy nm with
      | none => simp [IsStoreProxyEnabled, hn, hg]
      | some cfg =>
        cases he : cfg.enabled with
        | none => simp [IsStoreProxyEnabled, hn, hg, he]
        | some b => cases b <;> simp [IsStoreProxyEnabled, hn, hg, he]

/-- C7: decoding a typed plugin-options JSON value whose type tag is the empty
string, or whose tag is outside the closed set of known plugin kinds, returns
a decode error; no default variant is substituted. -/
theorem c7_unknown_or_empty_type_tag_is_error (strict : Bool) (doc : RawDoc)
    (fields : List (String × Jv)) (t : String) (prev : TypedClientPluginOptionsD)
    (hb : doc.bytes ≠ "null") (hp : doc.parsed = Except.ok (Jv.jobj fields))
    (ht : lookupTypeTag (Jv.jobj fields) = Except.ok t)
    (hbad : t = "" ∨ (knownClientPluginTypes.contains t) = false) :
    ∃ msg, unmarshalTypedClientPluginOptions strict doc prev = Except.error msg := by
  by_cases h0 : t = ""
  · subst h0
    exact ⟨"plugin type is empty",
      by simp [unmarshalTypedClientPluginOptions, hb, hp, ht]⟩
  · have hu : (knownClientPluginTypes.contains t) = false := by
      rcases hbad with h | h
      · exact absurd h h0
      · exact h
    have hmem : t ∉ knownClientPluginTypes := by simpa using hu
    exact ⟨"unknown plugin type: " ++ t,
      by simp [unmarshalTypedClientPluginOptions, hb, hp, ht, h0, hu, hmem]⟩

/-- C7 witness: an object with no type field (empty tag) and an object with an
unrecognized tag each fail to decode. -/
theorem c7_unknown_or_empty_type_tag_is_error_witness :
    (∃ msg, unmarshalTypedClientPluginOptions true
        (RawDoc.mk "\x7b\x7d" (Except.ok (Jv.jobj [])))
        TypedClientPluginOptionsD.zero = Except.error msg)
    ∧ (∃ msg, unmarshalTypedClientPluginOptions true
        (RawDoc.mk "\x7b\"type\":\"bogus\"\x7d"
          (Except.ok (Jv.jobj [("type", Jv.jstr "bogus")])))
        TypedClientPluginOptionsD.zero = Except.error msg) :=
  ⟨c7_unknown_or_empty_type_tag_is_error true
      (RawDoc.mk "\x7b\x7d" (Except.ok (Jv.jobj []))) [] ""
      TypedClientPluginOptionsD.zero (by decide) rfl rfl (Or.inl rfl),
   c7_unknown_or_empty_type_tag_is_error true
      (RawDoc.mk "\x7b\"type\":\"bogus\"\x7d"
        (Except.ok (Jv.jobj [("type", Jv.jstr "bogus")])))
      [("type", Jv.jstr "bogus")] "bogus"
      TypedClientPluginOptionsD.zero (by decide) rfl rfl (Or.inr (by decide))⟩

/-- C10: unmarshalling the four-byte JSON literal null into a
TypedClientPluginOptions succeeds without error and leaves both the type tag
and the options payload empty, whatever the strictness flag. -/
theorem c10_null_literal_unmarshals_to_empty (strict : Bool)
    (parsed : Except String Jv) :
    unmarshalTypedClientPluginOptions strict (RawDoc.mk "null" parsed)
        TypedClientPluginOptionsD.zero
      = Except.ok TypedClientPluginOptionsD.zero
    ∧ TypedClientPluginOptionsD.zero.type = ""
    ∧ TypedClientPluginOptionsD.zero.options = none := by
  refine ⟨?_, rfl, rfl⟩
  simp [unmarshalTypedClientPluginOptions]

theorem emptyOrOptBool_some_idem (x : Option Bool) (b : Bool) :
    emptyOrOptBool (emptyOrOptBool x (some b)) (some b) = emptyOrOptBool x (some b) := by
  cases x <;> simp [emptyOrOptBool]

theorem emptyOrStr_idem (x d : String) (hd : d ≠ "") :
    emptyOrStr (emptyOrStr x d) d = emptyOrStr x d := by
  by_cases hx : x = "" <;> simp [emptyOrStr, hx, hd]

theorem ClientPluginOptionsV.complete_idem (o : ClientPluginOptionsV) :
    o.complete.complete = o.complete := by
  cases o <;>
    simp [ClientPluginOptionsV.complete, HTTPS2HTTPPluginOptionsV.complete,
      HTTPS2HTTPSPluginOptionsV.complete, emptyOrOptBool_some_idem]

/-- C8: Complete is idempotent on every plugin-options variant and on the
proxy and visitor config models: completing an already-completed value leaves
it unchanged. -/
theorem c8_complete_idempotent :
    (∀ o : ClientPluginOptionsV, o.complete.complete = o.complete)
    ∧ (∀ p : ProxyBaseConfigV, p.complete.complete = p.complete)
    ∧ (∀ v : VisitorBaseConfigV, v.complete.complete = v.complete) := by
  refine ⟨ClientPluginOptionsV.complete_idem, ?_, ?_⟩
  · intro p
    simp only [ProxyBaseConfigV.complete]
    congr 1
    · exact emptyOrStr_idem p.localIP "127.0.0.1" (by decide)
    · exact emptyOrStr_idem p.bandwidthLimitMode "client" (by decide)
    · cases p.plugin with
      | none => rfl
      | some o => simp [ClientPluginOptionsV.complete_idem]
  · intro v
    simp only [VisitorBaseConfigV.complete]
    congr 1
    exact emptyOrStr_idem v.bindAddr "127.0.0.1" (by decide)

/-- C5: for every well-formed proxy and visitor config value, the clone is
field-equal to the original (equal plain fields, and every reference reads
back the same cell), the clone and the original own disjoint reference
locations, and a write through any reference of either one leaves every read
through the other unchanged — covering nested plugin options,
header-operation maps, annotation/metadata maps, domain and location lists,
and the NAT-traversal sub-config. -/
theorem c5_clone_field_equal_and_independent (h : Heap) (v : ProxyConfigH)
    (w : VisitorConfigH) (hv : WfRefs h v.refs) (hw : WfRefs h w.refs) :
    ((v.clone h).2.scrub = v.scrub
      ∧ (v.clone h).2.refs.map (readRef (v.clone h).1)
          = v.refs.map (readRef (v.clone h).1)
      ∧ (∀ ℓ, some ℓ ∈ (v.clone h).2.refs → some ℓ ∉ v.refs)
      ∧ (∀ ℓ c, some ℓ ∈ (v.clone h).2.refs →
          v.refs.map (readRef (Heap.update (v.clone h).1 ℓ c))
            = v.refs.map (readRef (v.clone h).1))
      ∧ (∀ ℓ c, some ℓ ∈ v.refs →
          (v.clone h).2.refs.map (readRef (Heap.update (v.clone h).1 ℓ c))
            = (v.clone h).2.refs.map (readRef (v.clone h).1)))
    ∧ ((w.clone h).2.scrub = w.scrub
      ∧ (w.clone h).2.refs.map (readRef (w.clone h).1)
          = w.refs.map (readRef (w.clone h).1)
      ∧ (∀ ℓ, some ℓ ∈ (w.clone h).2.refs → some ℓ ∉ w.refs)
      ∧ (∀ ℓ c, some ℓ ∈ (w.clone h).2.refs →
          w.refs.map (readRef (Heap.update (w.clone h).1 ℓ c))
            = w.refs.map (readRef (w.clone h).1))
      ∧ (∀ ℓ c, some ℓ ∈ w.refs →
          (w.clone h).2.refs.map (readRef (Heap.update (w.clone h).1 ℓ c))
            = (w.clone h).2.refs.map (readRef (w.clone h).1))) := by
  obtain ⟨r1, r2, r3, r4⟩ := cloneOut_independence hv (proxyConfig_clone_out h v hv)
  obtain ⟨q1, q2, q3, q4⟩ := cloneOut_independence hw (visitorConfig_clone_out h w hw)
  exact ⟨⟨proxyConfig_clone_scrub h v, r1, r2, r3, r4⟩,
         ⟨visitorConfig_clone_scrub h w, q1, q2, q3, q4⟩⟩

/-- C5 witness: the deep-clone contract at the concrete heap and configs of
the clone tests. -/
theorem c5_clone_field_equal_and_independent_witness :
    ((exProxy.clone exHeap).2.scrub = exProxy.scrub
      ∧ (exProxy.clone exHeap).2.refs.map (readRef (exProxy.clone exHeap).1)
          = exProxy.refs.map (readRef (exProxy.clone exHeap).1)
      ∧ (∀ ℓ, some ℓ ∈ (exProxy.clone exHeap).2.refs → some ℓ ∉ exProxy.refs)
      ∧ (∀ ℓ c, some ℓ ∈ (exProxy.clone exHeap).2.refs →
          exProxy.refs.map (readRef (Heap.update (exProxy.clone exHeap).1 ℓ c))
            = exProxy.refs.map (readRef (exProxy.clone exHeap).1))
      ∧ (∀ ℓ c, some ℓ ∈ exProxy.refs →
          (exProxy.clone exHeap).2.refs.map
              (readRef (Heap.update (exProxy.clone exHeap).1 ℓ c))
            = (exProxy.clone exHeap).2.refs.map (readRef (exProxy.clone exHeap).1)))
    ∧ ((exVisitor.clone exHeap).2.scrub = exVisitor.scrub
      ∧ (exVisitor.clone exHeap).2.refs.map (readRef (exVisitor.clone exHeap).1)
          = exVisitor.refs.map (readRef (exVisitor.clone exHeap).1)
      ∧ (∀ ℓ, some ℓ ∈ (exVisitor.clone exHeap).2.refs → some ℓ ∉ exVisitor.refs)
      ∧ (∀ ℓ c, some ℓ ∈ (exVisitor.clone exHeap).2.refs →
          exVisitor.refs.map (readRef (Heap.update (exVisitor.clone exHeap).1 ℓ c))
            = exVisitor.refs.map (readRef (exVisitor.clone exHeap).1))
      ∧ (∀ ℓ c, some ℓ ∈ exVisitor.refs →
          (exVisitor.clone exHeap).2.refs.map
              (readRef (Heap.update (exVisitor.clone exHeap).1 ℓ c))
            = (exVisitor.clone exHeap).2.refs.map (readRef (exVisitor.clone exHeap).1))) :=
  c5_clone_field_equal_and_independent exHeap exProxy exVisitor
    (by unfold WfRefs; decide) (by unfold WfRefs; decide)
